import Mathlib

/-!
Verification of the dictation capture / encoding / visualization core of the
dictato repository: the audio worklet frame encoder (`public/audio-processor.js`),
the two bar-visualization modes (frequency-domain `updateBars` and scalar
`updateBarsFromLevel`), and the capture session lifecycle of the floating
window (`startAudioCapture` / `stopAudioCapture` and the `floating-expanded`
handlers).
-/

namespace Dictato

/-! ## Frame encoder (`public/audio-processor.js`, class `AudioProcessor`) -/

/-- Frame size of the worklet encoder: `this.bufferSize = 2400` (100 ms at 24 kHz). -/
def bufferSize : ℕ := 2400

/-- Clamping of a sample to `[-1, 1]`: `Math.max(-1, Math.min(1, v))`. -/
def clampSample (x : ℚ) : ℚ := max (-1) (min 1 x)

/-- Truncation toward zero, which is what JavaScript applies to a float
before storing it into an `Int16Array` slot. -/
def truncToward (q : ℚ) : ℤ := if q < 0 then ⌈q⌉ else ⌊q⌋

/-- Wrap an integer into the signed 16-bit range, the final step of
`Int16Array` element conversion. -/
def toInt16 (n : ℤ) : ℤ := (n + 32768) % 65536 - 32768

/-- Scaled, truncated (pre-wrap) quantized value of a sample:
clamp, then `s < 0 ? s * 0x8000 : s * 0x7fff`, truncated toward zero. -/
def rawQuantize (x : ℚ) : ℤ :=
  truncToward (if clampSample x < 0 then clampSample x * 32768 else clampSample x * 32767)

/-- Full 16-bit quantization of one sample as stored into the emitted frame
by `int16Buffer[j] = s < 0 ? s * 0x8000 : s * 0x7fff`. -/
def quantize (x : ℚ) : ℤ := toInt16 (rawQuantize x)

/-- Modelled from the spec: the matching decoder is not part of this
repository (frames are handed to the transport boundary); the spec's
testable property "decode(encode(x)) ≈ x within 1/32768" presumes the
inverse of the encoder's scaling, negative values by 32768 and
non-negative values by 32767. -/
def decodeSample (n : ℤ) : ℚ := if n < 0 then (n : ℚ) / 32768 else (n : ℚ) / 32767

/-- State of the worklet processor: the partially filled sample buffer
(`this.buffer` up to `this.bufferIndex`) and the frames emitted so far,
in emission order. -/
structure EncoderState where
  buffer : List ℚ
  frames : List (List ℤ)
deriving DecidableEq

/-- Initial worklet state: empty buffer, nothing emitted. -/
def initState : EncoderState := ⟨[], []⟩

/-- One iteration of the worklet loop: append the sample
(`this.buffer[this.bufferIndex++] = inputChannel[i]`); once
`bufferIndex >= bufferSize`, quantize the whole buffer, emit it via
`postMessage`, and reset the buffer. -/
def pushSample (s : EncoderState) (x : ℚ) : EncoderState :=
  let buf := s.buffer ++ [x]
  if bufferSize ≤ buf.length then
    ⟨[], s.frames ++ [buf.map quantize]⟩
  else
    ⟨buf, s.frames⟩

/-- One `process` call of the worklet on (the samples of) an input channel. -/
def process (s : EncoderState) (input : List ℚ) : EncoderState :=
  input.foldl pushSample s

/-! ### General encoder lemmas -/

theorem pushSample_eq (s : EncoderState) (x : ℚ) :
    pushSample s x =
      if bufferSize ≤ s.buffer.length + 1 then
        ⟨[], s.frames ++ [(s.buffer ++ [x]).map quantize]⟩
      else ⟨s.buffer ++ [x], s.frames⟩ := by
  simp [pushSample]

theorem process_cons (s : EncoderState) (x : ℚ) (xs : List ℚ) :
    process s (x :: xs) = process (pushSample s x) xs := rfl

theorem process_length_stats (xs : List ℚ) : ∀ s : EncoderState,
    s.buffer.length < bufferSize →
    (process s xs).buffer.length = (s.buffer.length + xs.length) % bufferSize ∧
    (process s xs).frames.length =
      s.frames.length + (s.buffer.length + xs.length) / bufferSize := by
  induction xs with
  | nil =>
    intro s h
    constructor
    · simp [process, Nat.mod_eq_of_lt h]
    · simp [process, Nat.div_eq_of_lt h]
  | cons x xs ih =>
    intro s h
    rw [process_cons, pushSample_eq]
    split_ifs with hfull
    · obtain ⟨h1, h2⟩ := ih ⟨[], s.frames ++ [(s.buffer ++ [x]).map quantize]⟩
        (by simp [bufferSize])
      dsimp only at h1 h2
      simp only [List.length_nil, List.length_append, List.length_singleton,
        List.length_cons, Nat.zero_add] at h1 h2
      rw [bufferSize] at *
      constructor
      · rw [h1, List.length_cons]
        omega
      · rw [h2, List.length_cons]
        omega
    · obtain ⟨h1, h2⟩ := ih ⟨s.buffer ++ [x], s.frames⟩
        (by dsimp only; simp only [List.length_append, List.length_singleton]; omega)
      dsimp only at h1 h2
      simp only [List.length_append, List.length_singleton] at h1 h2
      rw [bufferSize] at *
      constructor
      · rw [h1, List.length_cons]
        omega
      · rw [h2, List.length_cons]
        omega

theorem process_frames_sized (xs : List ℚ) : ∀ s : EncoderState,
    s.buffer.length < bufferSize →
    (∀ f ∈ s.frames, f.length = bufferSize) →
    ∀ f ∈ (process s xs).frames, f.length = bufferSize := by
  induction xs with
  | nil =>
    intro s _ hf
    simpa [process] using hf
  | cons x xs ih =>
    intro s h hf
    rw [process_cons, pushSample_eq]
    split_ifs with hfull
    · refine ih _ (by simp [bufferSize]) ?_
      intro f hmem
      dsimp only at hmem
      rcases List.mem_append.mp hmem with hl | hr
      · exact hf f hl
      · simp only [List.mem_singleton] at hr
        subst hr
        simp only [List.length_map, List.length_append, List.length_singleton]
        omega
    · exact ih _
        (by dsimp only; simp only [List.length_append, List.length_singleton]; omega) hf

theorem process_append_state (ps : List (List ℚ)) : ∀ s : EncoderState,
    ps.foldl process s = process s ps.flatten := by
  induction ps with
  | nil => intro s; simp [process]
  | cons p ps ih =>
    intro s
    rw [List.foldl_cons, ih, List.flatten_cons]
    simp [process, List.foldl_append]

/-! ## Claim theorems for the encoder -/

/-- Claim C2: for every sequence of samples and every partition of it into
consecutive subsequences, feeding the parts through successive `process`
calls yields exactly the same sequence of emitted frames as feeding the
whole stream in one call, and the same retained partial buffer (which is
never emitted in either case). -/
theorem dictato_C2_split_invariance (parts : List (List ℚ)) :
    (parts.foldl process initState).frames = (process initState parts.flatten).frames ∧
    parts.foldl process initState = process initState parts.flatten := by
  have h := process_append_state parts initState
  exact ⟨by rw [h], h⟩

/-- Claim C9: with `bufferSize = 2400` (100 ms at 24 kHz), pushing 4800
samples from the empty state emits exactly 2 frames, each of length exactly
2400, with zero samples retained; pushing 2401 samples emits exactly 1 frame
(of length 2400) and retains exactly 1 sample in the partial buffer, which
is not part of any emitted frame. -/
theorem dictato_C9_frame_counts (xs ys : List ℚ)
    (hx : xs.length = 4800) (hy : ys.length = 2401) :
    bufferSize = 2400 ∧
    (process initState xs).frames.length = 2 ∧
    (∀ f ∈ (process initState xs).frames, f.length = 2400) ∧
    (process initState xs).buffer = [] ∧
    (process initState ys).frames.length = 1 ∧
    (∀ f ∈ (process initState ys).frames, f.length = 2400) ∧
    (process initState ys).buffer.length = 1 := by
  have h0 : initState.buffer.length < bufferSize := by decide
  have hf0 : ∀ f ∈ initState.frames, f.length = bufferSize := by
    intro f hf
    simp [initState] at hf
  obtain ⟨hxb, hxf⟩ := process_length_stats xs initState h0
  obtain ⟨hyb, hyf⟩ := process_length_stats ys initState h0
  rw [hx] at hxb hxf
  rw [hy] at hyb hyf
  have hi0 : initState.buffer.length = 0 := rfl
  have hifr : initState.frames.length = 0 := rfl
  rw [hi0] at hxb hxf hyb hyf
  rw [hifr] at hxf hyf
  norm_num [bufferSize] at hxb hxf hyb hyf
  refine ⟨rfl, hxf, ?_, ?_, hyf, ?_, hyb⟩
  · intro f hmem
    simpa [bufferSize] using process_frames_sized xs initState h0 hf0 f hmem
  · exact hxb
  · intro f hmem
    simpa [bufferSize] using process_frames_sized ys initState h0 hf0 f hmem

/-- Witness for C9 at concrete inputs: 4800 and 2401 zero samples. -/
theorem dictato_C9_frame_counts_witness :
    bufferSize = 2400 ∧
    (process initState (List.replicate 4800 0)).frames.length = 2 ∧
    (∀ f ∈ (process initState (List.replicate 4800 0)).frames, f.length = 2400) ∧
    (process initState (List.replicate 4800 0)).buffer = [] ∧
    (process initState (List.replicate 2401 0)).frames.length = 1 ∧
    (∀ f ∈ (process initState (List.replicate 2401 0)).frames, f.length = 2400) ∧
    (process initState (List.replicate 2401 0)).buffer.length = 1 :=
  dictato_C9_frame_counts (List.replicate 4800 0) (List.replicate 2401 0)
    (List.length_replicate 4800 0) (List.length_replicate 2401 0)

/-- Claim C10: starting from the initial state, after every completed
`process` call the accumulator holds strictly fewer than
`bufferSize = 2400` samples (a full buffer is emitted and reset within the
same call), the retained count is exactly the total sample count modulo
2400, and a frame has been emitted for exactly every 2400th accumulated
sample. -/
theorem dictato_C10_buffer_invariant (xs : List ℚ) :
    (process initState xs).buffer.length < bufferSize ∧
    (process initState xs).buffer.length = xs.length % bufferSize ∧
    (process initState xs).frames.length = xs.length / bufferSize := by
  have h0 : initState.buffer.length < bufferSize := by decide
  obtain ⟨hb, hf⟩ := process_length_stats xs initState h0
  have hi0 : initState.buffer.length = 0 := rfl
  have hifr : initState.frames.length = 0 := rfl
  rw [hi0, Nat.zero_add] at hb hf
  rw [hifr, Nat.zero_add] at hf
  refine ⟨?_, hb, hf⟩
  rw [hb]
  exact Nat.mod_lt _ (by decide)

/-- Claim C4 (amended): quantization clamps to `[-1, 1]`, scales negative
values by 32768 and non-negative ones by 32767, truncates toward zero;
`quantize 1 = 32767`, `quantize (-1) = -32768`; the pre-wrap value always
lies in the signed 16-bit range so the `Int16Array` wrap never fires; and
the round trip `decodeSample (quantize x)` is within 1/32767 of the clamped
input (the claimed 1/32768 fails by one step on the positive half, where
the scale is 32767 — see the counterexample). -/
theorem dictato_C4_quantization (x : ℚ) :
    quantize 1 = 32767 ∧ quantize (-1) = -32768 ∧
    (-32768 ≤ rawQuantize x ∧ rawQuantize x ≤ 32767) ∧
    quantize x = rawQuantize x ∧
    |decodeSample (quantize x) - clampSample x| < 1 / 32767 := by
  have hs1 : (-1 : ℚ) ≤ clampSample x := le_max_left _ _
  have hs2 : clampSample x ≤ 1 := max_le (by norm_num) (min_le_left _ _)
  have hbounds : -32768 ≤ rawQuantize x ∧ rawQuantize x ≤ 32767 := by
    by_cases hneg : clampSample x < 0
    · have hv : clampSample x * 32768 < 0 := mul_neg_of_neg_of_pos hneg (by norm_num)
      have hraw : rawQuantize x = ⌈clampSample x * 32768⌉ := by
        rw [rawQuantize, if_pos hneg, truncToward, if_pos hv]
      rw [hraw]
      constructor
      · calc (-32768 : ℤ) = ⌈((-32768 : ℤ) : ℚ)⌉ := (Int.ceil_intCast _).symm
          _ = ⌈(-32768 : ℚ)⌉ := by norm_num
          _ ≤ ⌈clampSample x * 32768⌉ := Int.ceil_mono (by nlinarith)
      · calc ⌈clampSample x * 32768⌉ ≤ ⌈(0 : ℚ)⌉ := Int.ceil_mono hv.le
          _ ≤ 32767 := by rw [Int.ceil_zero]; norm_num
    · push_neg at hneg
      have hv : ¬clampSample x * 32767 < 0 := by nlinarith
      have hraw : rawQuantize x = ⌊clampSample x * 32767⌋ := by
        rw [rawQuantize, if_neg (not_lt.mpr hneg), truncToward, if_neg hv]
      rw [hraw]
      constructor
      · calc (-32768 : ℤ) ≤ ⌊(0 : ℚ)⌋ := by rw [Int.floor_zero]; norm_num
          _ ≤ ⌊clampSample x * 32767⌋ := Int.floor_mono (by nlinarith)
      · calc ⌊clampSample x * 32767⌋ ≤ ⌊(32767 : ℚ)⌋ := Int.floor_mono (by nlinarith)
          _ = ⌊((32767 : ℤ) : ℚ)⌋ := by norm_num
          _ = 32767 := Int.floor_intCast _
  have hid : quantize x = rawQuantize x := by
    rw [quantize, toInt16]
    have h1 : (rawQuantize x + 32768) % 65536 = rawQuantize x + 32768 :=
      Int.emod_eq_of_lt (by omega) (by omega)
    omega
  have hq1 : quantize 1 = 32767 := by
    have hc : clampSample 1 = 1 := by
      rw [clampSample, min_self]
      exact max_eq_right (by norm_num)
    have hraw : rawQuantize 1 = 32767 := by
      rw [rawQuantize, hc, if_neg (by norm_num), truncToward, if_neg (by norm_num)]
      rw [show (1 : ℚ) * 32767 = ((32767 : ℤ) : ℚ) by norm_num, Int.floor_intCast]
    rw [quantize, hraw, toInt16]
    norm_num
  have hqm1 : quantize (-1) = -32768 := by
    have hc : clampSample (-1) = -1 := by
      rw [clampSample, min_eq_right (by norm_num), max_self]
    have hraw : rawQuantize (-1) = -32768 := by
      rw [rawQuantize, hc, if_pos (by norm_num), truncToward, if_pos (by norm_num)]
      rw [show (-1 : ℚ) * 32768 = ((-32768 : ℤ) : ℚ) by norm_num, Int.ceil_intCast]
    rw [quantize, hraw, toInt16]
    norm_num
  refine ⟨hq1, hqm1, hbounds, hid, ?_⟩
  rw [hid]
  by_cases hneg : clampSample x < 0
  · have hv : clampSample x * 32768 < 0 := mul_neg_of_neg_of_pos hneg (by norm_num)
    have hraw : rawQuantize x = ⌈clampSample x * 32768⌉ := by
      rw [rawQuantize, if_pos hneg, truncToward, if_pos hv]
    rw [hraw]
    have hceil1 : clampSample x * 32768 ≤ ((⌈clampSample x * 32768⌉ : ℤ) : ℚ) :=
      Int.le_ceil _
    have hceil2 : ((⌈clampSample x * 32768⌉ : ℤ) : ℚ) < clampSample x * 32768 + 1 :=
      Int.ceil_lt_add_one _
    by_cases hr : ⌈clampSample x * 32768⌉ < 0
    · rw [decodeSample, if_pos hr, abs_lt]
      constructor
      · linarith
      · linarith
    · have hle : ⌈clampSample x * 32768⌉ ≤ 0 := Int.ceil_le.mpr (by exact_mod_cast hv.le)
      have hr0 : ⌈clampSample x * 32768⌉ = 0 := le_antisymm hle (not_lt.mp hr)
      rw [hr0] at hceil2
      rw [hr0, decodeSample, if_neg (lt_irrefl 0), abs_lt]
      push_cast at hceil2
      constructor
      · norm_num; linarith
      · norm_num; linarith
  · push_neg at hneg
    have hv : ¬clampSample x * 32767 < 0 := by nlinarith
    have hraw : rawQuantize x = ⌊clampSample x * 32767⌋ := by
      rw [rawQuantize, if_neg (not_lt.mpr hneg), truncToward, if_neg hv]
    rw [hraw]
    have hfl1 : ((⌊clampSample x * 32767⌋ : ℤ) : ℚ) ≤ clampSample x * 32767 :=
      Int.floor_le _
    have hfl2 : clampSample x * 32767 < ((⌊clampSample x * 32767⌋ : ℤ) : ℚ) + 1 :=
      Int.lt_floor_add_one _
    have hfl0 : (0 : ℤ) ≤ ⌊clampSample x * 32767⌋ :=
      Int.le_floor.mpr (by push_cast; nlinarith)
    rw [decodeSample, if_neg (not_lt.mpr hfl0), abs_lt]
    constructor
    · linarith
    · linarith

/-- Claim C4 counterexample: at the concrete sample x = 65535/(65536·32767),
the encoder emits 0 and the decoded value differs from x by more than
1/32768 (x itself exceeds 1/32768), refuting the claimed round-trip bound. -/
theorem dictato_C4_counterexample :
    1 / 32768 <
      |decodeSample (quantize (65535 / 2147418112)) - clampSample (65535 / 2147418112)| := by
  have hc : clampSample (65535 / 2147418112) = 65535 / 2147418112 := by
    rw [clampSample, min_eq_right (by norm_num), max_eq_right (by norm_num)]
  have hraw : rawQuantize (65535 / 2147418112) = 0 := by
    rw [rawQuantize, hc, if_neg (by norm_num), truncToward, if_neg (by norm_num)]
    rw [Int.floor_eq_zero_iff]
    norm_num [Set.mem_Ico]
  have hq : quantize (65535 / 2147418112) = 0 := by
    rw [quantize, hraw, toInt16]
    norm_num
  rw [hq, hc, decodeSample, if_neg (lt_irrefl 0)]
  rw [Int.cast_zero, zero_div, zero_sub, abs_neg, abs_of_nonneg (by norm_num)]
  norm_num

/-! ## Frequency-domain visualization
(`updateBars` in the frequency-mode FloatingWindow variant) -/

/-- `BAR_COUNT = 24` in the frequency-domain visualization mode. -/
def freqBarCount : ℕ := 24

/-- `MIN_BAR_HEIGHT = 4` in the frequency-domain mode. -/
def freqMinHeight : ℚ := 4

/-- `MAX_BAR_HEIGHT = 32` in the frequency-domain mode. -/
def freqMaxHeight : ℚ := 32

/-- `VOICE_AMPLIFICATION = 2.5`. -/
def voiceAmplification : ℚ := 2.5

/-- Number of frequency bins read from the analyser:
`analyser.fftSize = 256` gives `frequencyBinCount = 128`. -/
def freqBinCount : ℕ := 128

/-- One bar of `updateBars`: average the bar's group of `binSize` byte
magnitudes, amplify and clamp to 255, then map linearly into
`[MIN_BAR_HEIGHT, MAX_BAR_HEIGHT]`. -/
def freqBar (data : List ℕ) (i : ℕ) : ℚ :=
  let binSize := data.length / freqBarCount
  let slice := (data.drop (i * binSize)).take binSize
  let avg : ℚ := ((slice.map fun b : ℕ => (b : ℚ)).sum) / (binSize : ℚ)
  let amplified := min 255 (avg * voiceAmplification)
  freqMinHeight + amplified / 255 * (freqMaxHeight - freqMinHeight)

/-- The bar vector computed by one `updateBars` tick from the byte
frequency data. -/
def updateBars (data : List ℕ) : List ℚ :=
  (List.range freqBarCount).map (freqBar data)

/-! ## Scalar-level visualization
(`updateBarsFromLevel` in `src/components/FloatingWindow.tsx`) -/

/-- `BAR_COUNT = 48` in the scalar mode. -/
def scalarBarCount : ℕ := 48

noncomputable section

/-- `MIN_BAR_HEIGHT = 3` in the scalar mode. -/
def scalarMinHeight : ℝ := 3

/-- `MAX_BAR_HEIGHT = 48` in the scalar mode. -/
def scalarMaxHeight : ℝ := 48

/-- `NOISE_THRESHOLD = 0.015`. -/
def noiseThreshold : ℝ := 0.015

/-- `AMPLIFICATION_FACTOR = 6.0`. -/
def amplificationFactor : ℝ := 6

/-- `WAVE_BASE = 0.85`. -/
def waveBase : ℝ := 0.85

/-- `WAVE_VARIATION = 0.15`. -/
def waveVariation : ℝ := 0.15

/-- `WAVE_FREQUENCY = 3`. -/
def waveFrequency : ℝ := 3

/-- `LEVEL_PHASE_FACTOR = 2`. -/
def levelPhaseFactor : ℝ := 2

/-- `RANDOM_BASE = 0.92`. -/
def randomBase : ℝ := 0.92

/-- `RANDOM_RANGE = 0.16`. -/
def randomRange : ℝ := 0.16

/-- The amplified level: rescale the above-threshold range to `[0, 1]`,
square-root compression, multiply by the amplification factor, clamp to 1. -/
def amplifiedLevel (level : ℝ) : ℝ :=
  let adjustedLevel := (level - noiseThreshold) / (1 - noiseThreshold)
  min 1 (Real.sqrt adjustedLevel * amplificationFactor)

/-- One bar of `updateBarsFromLevel` above the noise gate: squared bell
envelope times a sinusoidal modulation (phase shifted by the amplified
level) times a per-bar random factor, mapped into
`[MIN_BAR_HEIGHT, MAX_BAR_HEIGHT]`. `rand i` models the `Math.random()`
draw for bar `i`, a value in `[0, 1)`. -/
def scalarBar (level : ℝ) (rand : ℕ → ℝ) (i : ℕ) : ℝ :=
  let t : ℝ := (i : ℝ) / ((scalarBarCount : ℝ) - 1)
  let envelope := Real.sin (t * Real.pi)
  let envelopeStrong := envelope * envelope
  let waveModulation := waveBase + waveVariation *
    Real.sin (t * Real.pi * waveFrequency + amplifiedLevel level * levelPhaseFactor)
  let waveEffect := envelopeStrong * waveModulation
  let randomFactor := randomBase + rand i * randomRange
  scalarMinHeight +
    amplifiedLevel level * waveEffect * randomFactor * (scalarMaxHeight - scalarMinHeight)

/-- The bar vector produced for one scalar `audio-level` event: noise gate
below `NOISE_THRESHOLD` (baseline vector), otherwise the synthesized wave. -/
def updateBarsFromLevel (level : ℝ) (rand : ℕ → ℝ) : List ℝ :=
  if level < noiseThreshold then List.replicate scalarBarCount scalarMinHeight
  else (List.range scalarBarCount).map (scalarBar level rand)

end

/-! ### Visualization lemmas -/

theorem barMap_bounds (q : ℚ) (h0 : 0 ≤ q) :
    freqMinHeight ≤
      freqMinHeight + min 255 (q * voiceAmplification) / 255 * (freqMaxHeight - freqMinHeight) ∧
    freqMinHeight + min 255 (q * voiceAmplification) / 255 * (freqMaxHeight - freqMinHeight) ≤
      freqMaxHeight := by
  have ha : 0 ≤ min 255 (q * voiceAmplification) :=
    le_min (by norm_num) (mul_nonneg h0 (by norm_num [voiceAmplification]))
  have hb : min 255 (q * voiceAmplification) ≤ 255 := min_le_left _ _
  rw [freqMinHeight, freqMaxHeight]
  constructor
  · nlinarith
  · nlinarith

theorem freqAvg_nonneg (data : List ℕ) (i : ℕ) :
    0 ≤ ((((data.drop (i * (data.length / freqBarCount))).take
        (data.length / freqBarCount)).map fun b : ℕ => (b : ℚ)).sum) /
      ((data.length / freqBarCount : ℕ) : ℚ) := by
  apply div_nonneg
  · apply List.sum_nonneg
    intro q hq
    simp only [List.mem_map] at hq
    obtain ⟨b, -, rfl⟩ := hq
    exact Nat.cast_nonneg b
  · positivity

theorem amplifiedLevel_bounds (level : ℝ) :
    0 ≤ amplifiedLevel level ∧ amplifiedLevel level ≤ 1 := by
  simp only [amplifiedLevel]
  refine ⟨le_min (by norm_num) ?_, min_le_left _ _⟩
  exact mul_nonneg (Real.sqrt_nonneg _) (by norm_num [amplificationFactor])

theorem scalarBar_bounds (level : ℝ) (rand : ℕ → ℝ) (i : ℕ)
    (hrand : ∀ j, 0 ≤ rand j ∧ rand j < 1) :
    scalarMinHeight ≤ scalarBar level rand i ∧
    scalarBar level rand i ≤
      scalarMinHeight + 27 / 25 * (scalarMaxHeight - scalarMinHeight) := by
  obtain ⟨hL0, hL1⟩ := amplifiedLevel_bounds level
  obtain ⟨hr0, hr1⟩ := hrand i
  simp only [scalarBar, scalarMinHeight, scalarMaxHeight, waveBase, waveVariation,
    waveFrequency, levelPhaseFactor, randomBase, randomRange]
  set L := amplifiedLevel level with hLdef
  set E := Real.sin ((i : ℝ) / ((scalarBarCount : ℝ) - 1) * Real.pi) with hEdef
  set S := Real.sin ((i : ℝ) / ((scalarBarCount : ℝ) - 1) * Real.pi * 3 + L * 2) with hSdef
  set R := rand i with hRdef
  have hE1 : E ≤ 1 := Real.sin_le_one _
  have hEm : -1 ≤ E := Real.neg_one_le_sin _
  have hS1 : S ≤ 1 := Real.sin_le_one _
  have hSm : -1 ≤ S := Real.neg_one_le_sin _
  have h1 : 0 ≤ E * E := mul_self_nonneg E
  have h2 : (0 : ℝ) ≤ 0.85 + 0.15 * S := by linarith
  have h3 : (0 : ℝ) ≤ 0.92 + R * 0.16 := by linarith
  constructor
  · have h4 : 0 ≤ L * (E * E * (0.85 + 0.15 * S)) :=
      mul_nonneg hL0 (mul_nonneg h1 h2)
    have h5 : 0 ≤ L * (E * E * (0.85 + 0.15 * S)) * (0.92 + R * 0.16) := mul_nonneg h4 h3
    nlinarith
  · have hE2le : E * E ≤ 1 := by nlinarith
    have hMle : (0.85 : ℝ) + 0.15 * S ≤ 1 := by linarith
    have hEM : E * E * (0.85 + 0.15 * S) ≤ 1 := mul_le_one₀ hE2le h2 hMle
    have hLEM : L * (E * E * (0.85 + 0.15 * S)) ≤ 1 :=
      mul_le_one₀ hL1 (mul_nonneg h1 h2) hEM
    have hRle : (0.92 : ℝ) + R * 0.16 ≤ 27 / 25 := by linarith
    have hfin : L * (E * E * (0.85 + 0.15 * S)) * (0.92 + R * 0.16) ≤ 27 / 25 := by
      calc L * (E * E * (0.85 + 0.15 * S)) * (0.92 + R * 0.16) ≤ 1 * (27 / 25) :=
            mul_le_mul hLEM hRle h3 (by norm_num)
        _ = 27 / 25 := one_mul _
    nlinarith

theorem amplifiedLevel_half : amplifiedLevel (1 / 2) = 1 := by
  simp only [amplifiedLevel, noiseThreshold, amplificationFactor]
  have h1 : ((1 : ℝ) / 2 - 0.015) / (1 - 0.015) = 97 / 197 := by norm_num
  rw [h1]
  have h2 : (1 : ℝ) / 6 ≤ Real.sqrt (97 / 197) :=
    (Real.le_sqrt (by norm_num) (by norm_num)).mpr (by norm_num)
  exact min_eq_left (by linarith)

theorem scalarBar26_value :
    scalarBar (1 / 2) (fun _ => 999 / 1000) 26 =
      3 + (Real.sin (26 / 47 * Real.pi) * Real.sin (26 / 47 * Real.pi) *
        (0.85 + 0.15 * Real.sin (26 / 47 * Real.pi * 3 + 2))) *
        (0.92 + 999 / 1000 * 0.16) * 45 := by
  simp only [scalarBar, scalarMinHeight, scalarMaxHeight, waveBase, waveVariation,
    waveFrequency, levelPhaseFactor, randomBase, randomRange, scalarBarCount,
    amplifiedLevel_half]
  norm_num

theorem scalarBar26_gt :
    (48 : ℝ) < 3 + (Real.sin (26 / 47 * Real.pi) * Real.sin (26 / 47 * Real.pi) *
      (0.85 + 0.15 * Real.sin (26 / 47 * Real.pi * 3 + 2))) *
      (0.92 + 999 / 1000 * 0.16) * 45 := by
  have hpi1 : (3.141592 : ℝ) < Real.pi := Real.pi_gt_d6
  have hpi2 : Real.pi < 3.141593 := Real.pi_lt_d6
  have hE : (0.986037 : ℝ) ≤ Real.sin (26 / 47 * Real.pi) := by
    have h1 : Real.sin (26 / 47 * Real.pi) = Real.cos (-(5 / 94 * Real.pi)) := by
      rw [← Real.cos_pi_div_two_sub]
      congr 1
      ring
    rw [h1, Real.cos_neg]
    have hb := Real.one_sub_sq_div_two_le_cos (x := 5 / 94 * Real.pi)
    have hub : (5 : ℝ) / 94 * Real.pi ≤ 0.1671061 := by linarith
    have hlb : (0 : ℝ) ≤ 5 / 94 * Real.pi := by positivity
    nlinarith [hb, mul_self_le_mul_self hlb hub]
  have hS : (0.795023 : ℝ) ≤ Real.sin (26 / 47 * Real.pi * 3 + 2) := by
    have h1 : Real.sin (26 / 47 * Real.pi * 3 + 2) = Real.sin (2 - 16 / 47 * Real.pi) := by
      rw [show (26 / 47 : ℝ) * Real.pi * 3 + 2 = (2 - 16 / 47 * Real.pi) + 2 * Real.pi by ring]
      exact Real.sin_add_two_pi _
    have h2 : Real.sin (2 - 16 / 47 * Real.pi) = Real.cos (79 / 94 * Real.pi - 2) := by
      rw [← Real.cos_pi_div_two_sub]
      congr 1
      ring
    rw [h1, h2]
    have hb := Real.one_sub_sq_div_two_le_cos (x := 79 / 94 * Real.pi - 2)
    have hub : (79 : ℝ) / 94 * Real.pi - 2 ≤ 0.640275 := by linarith
    have hlb : (0 : ℝ) ≤ 79 / 94 * Real.pi - 2 := by linarith
    nlinarith [hb, mul_self_le_mul_self hlb hub]
  have hE2 : (0.986037 : ℝ) * 0.986037 ≤
      Real.sin (26 / 47 * Real.pi) * Real.sin (26 / 47 * Real.pi) :=
    mul_self_le_mul_self (by norm_num) hE
  have hM : (0.96925345 : ℝ) ≤ 0.85 + 0.15 * Real.sin (26 / 47 * Real.pi * 3 + 2) := by
    linarith
  have hEM : (0.986037 : ℝ) * 0.986037 * 0.96925345 ≤
      Real.sin (26 / 47 * Real.pi) * Real.sin (26 / 47 * Real.pi) *
        (0.85 + 0.15 * Real.sin (26 / 47 * Real.pi * 3 + 2)) :=
    mul_le_mul hE2 hM (by norm_num) (mul_self_nonneg _)
  linarith

/-! ## Claim theorems for the visualization -/

/-- Claim C8: in scalar mode, for every input level strictly below the
noise threshold 0.015, the output is exactly the baseline vector (48 bars
all at the minimum height 3), regardless of prior state or jitter. -/
theorem dictato_C8_noise_gate (level : ℝ) (rand : ℕ → ℝ) (h : level < noiseThreshold) :
    updateBarsFromLevel level rand = List.replicate scalarBarCount scalarMinHeight := by
  rw [updateBarsFromLevel, if_pos h]

/-- Witness for C8 at level 0. -/
theorem dictato_C8_noise_gate_witness :
    updateBarsFromLevel 0 (fun _ => 0) = List.replicate scalarBarCount scalarMinHeight :=
  dictato_C8_noise_gate 0 (fun _ => 0) (by norm_num [noiseThreshold])

/-- Claim C1 (amended): in frequency mode the bar vector always has length
`BAR_COUNT = 24` and every entry lies in `[4, 32]`; in scalar mode the bar
vector always has length `BAR_COUNT = 48` and every entry is at least the
minimum height 3, but entries are only bounded above by
`3 + 1.08 · (48 − 3) = 51.6`, not by the declared maximum height 48: the
jitter factor reaches up to 1.08 and can push center bars above 48 (see
the counterexample). -/
theorem dictato_C1_bar_bounds (data : List ℕ) (level : ℝ) (rand : ℕ → ℝ)
    (hdata : data.length = freqBinCount)
    (hrand : ∀ i, 0 ≤ rand i ∧ rand i < 1) :
    (updateBars data).length = freqBarCount ∧
    (∀ h ∈ updateBars data, freqMinHeight ≤ h ∧ h ≤ freqMaxHeight) ∧
    (updateBarsFromLevel level rand).length = scalarBarCount ∧
    (∀ h ∈ updateBarsFromLevel level rand,
      scalarMinHeight ≤ h ∧
      h ≤ scalarMinHeight + 27 / 25 * (scalarMaxHeight - scalarMinHeight)) := by
  refine ⟨by simp [updateBars], ?_, ?_, ?_⟩
  · intro h hmem
    rw [updateBars] at hmem
    obtain ⟨i, -, rfl⟩ := List.mem_map.mp hmem
    exact barMap_bounds _ (freqAvg_nonneg data i)
  · rw [updateBarsFromLevel]
    split_ifs
    · exact List.length_replicate _ _
    · simp
  · intro h hmem
    rw [updateBarsFromLevel] at hmem
    split_ifs at hmem
    · have hmem2 := List.eq_of_mem_replicate hmem
      subst hmem2
      refine ⟨le_refl _, ?_⟩
      rw [scalarMinHeight, scalarMaxHeight]
      norm_num
    · obtain ⟨i, -, rfl⟩ := List.mem_map.mp hmem
      exact scalarBar_bounds level rand i hrand

/-- Witness for C1 at concrete inputs: 128 zero bins, level 0, zero jitter. -/
theorem dictato_C1_bar_bounds_witness :
    (updateBars (List.replicate 128 0)).length = freqBarCount ∧
    (∀ h ∈ updateBars (List.replicate 128 0), freqMinHeight ≤ h ∧ h ≤ freqMaxHeight) ∧
    (updateBarsFromLevel 0 (fun _ => 0)).length = scalarBarCount ∧
    (∀ h ∈ updateBarsFromLevel 0 (fun _ => 0),
      scalarMinHeight ≤ h ∧
      h ≤ scalarMinHeight + 27 / 25 * (scalarMaxHeight - scalarMinHeight)) :=
  dictato_C1_bar_bounds (List.replicate 128 0) 0 (fun _ => 0)
    (by simp [freqBinCount]) (fun i => by norm_num)

/-- Claim C1 counterexample: in scalar mode, at level 1/2 (which saturates
the amplified level to 1) with the per-bar random draw at 0.999 (a value
`Math.random()` can produce), bar 26 of the emitted vector exceeds the
declared maximum height 48: its height is about 48.79. So not every entry
lies in `[minHeight, maxHeight]` for every jitter value. -/
theorem dictato_C1_counterexample :
    scalarBar (1 / 2) (fun _ => 999 / 1000) 26 ∈
      updateBarsFromLevel (1 / 2) (fun _ => 999 / 1000) ∧
    scalarMaxHeight < scalarBar (1 / 2) (fun _ => 999 / 1000) 26 := by
  constructor
  · rw [updateBarsFromLevel, if_neg (by norm_num [noiseThreshold])]
    exact List.mem_map_of_mem _ (List.mem_range.mpr (by norm_num [scalarBarCount]))
  · rw [scalarMaxHeight, scalarBar26_value]
    exact scalarBar26_gt

/-! ## Capture session lifecycle
(`startAudioCapture` / `stopAudioCapture` and the `floating-expanded`
handlers of the frequency-mode FloatingWindow variant) -/

/-- The ways acquisition can fail, mirroring the `DOMException` names the
catch block distinguishes (`NotAllowedError`, `NotFoundError`,
`OverconstrainedError`, any other `DOMException`, or a non-DOM throw). -/
inductive MicFailure
  | notAllowed
  | notFound
  | overconstrained
  | otherDOM (name : String)
  | nonDOM
deriving DecidableEq

/-- The short error labels the catch block surfaces via `setError`. -/
inductive MicLabel
  | micDenied
  | micNotFound
  | micUnavailable
  | micErrorNamed (name : String)
  | micError
deriving DecidableEq

/-- The error classification of the catch block of `startAudioCapture`:
`NotAllowedError` becomes "Mic denied", `NotFoundError` "Mic not found",
`OverconstrainedError` "Mic unavailable", any other DOMException the
generic "Mic error: name" label, and a non-DOM throw the generic
"Mic error" label. -/
def classify : MicFailure → MicLabel
  | .notAllowed => .micDenied
  | .notFound => .micNotFound
  | .overconstrained => .micUnavailable
  | .otherDOM n => .micErrorNamed n
  | .nonDOM => .micError

/-- The four failure categories of the spec's acquisition error taxonomy. -/
inductive ErrCategory
  | permissionDenied
  | deviceNotFound
  | constraintsUnsatisfiable
  | unknownCaptureError
deriving DecidableEq

/-- The category each surfaced label belongs to; both generic labels fall
into the unknown-capture-error category. -/
def categoryOf : MicLabel → ErrCategory
  | .micDenied => .permissionDenied
  | .micNotFound => .deviceNotFound
  | .micUnavailable => .constraintsUnsatisfiable
  | .micErrorNamed _ => .unknownCaptureError
  | .micError => .unknownCaptureError

/-- The baseline bar vector of the frequency-mode window:
`Array(BAR_COUNT).fill(MIN_BAR_HEIGHT)`. -/
def freqBaseline : List ℚ := List.replicate freqBarCount freqMinHeight

/-- The component state relevant to the capture lifecycle: liveness of each
ref (`streamRef`, `audioContextRef`, `analyserRef`, `sourceNodeRef`,
`workletNodeRef`, `animationFrameRef`), the `isStartingRef` guard flag, the
React state (`isActive`, `isProcessing`, `error`, `barHeights`), and a
count of how many `getUserMedia` acquisitions have succeeded so far. -/
structure CaptureState where
  stream : Bool
  audioContext : Bool
  analyser : Bool
  sourceNode : Bool
  workletNode : Bool
  animationFrame : Bool
  isStarting : Bool
  isActive : Bool
  isProcessing : Bool
  errorLabel : Option MicLabel
  barHeights : List ℚ
  acquiredStreams : ℕ
deriving DecidableEq

/-- The state before any event: nothing live, baseline bars. -/
def initialCapture : CaptureState :=
  ⟨false, false, false, false, false, false, false, false, false, none, freqBaseline, 0⟩

/-- `stopAudioCapture`: cancel the animation frame first, disconnect the
worklet, analyser and source nodes in reverse construction order and null
their refs, stop the media tracks, close the audio context, and reset the
bar vector to baseline. It touches nothing else. -/
def stopAudio (s : CaptureState) : CaptureState :=
  { s with animationFrame := false, workletNode := false, analyser := false,
           sourceNode := false, stream := false, audioContext := false,
           barHeights := freqBaseline }

/-- The synchronous prefix of `startAudioCapture` up to its first `await`:
the guard `if (audioContextRef.current || isStartingRef.current) return`
followed by setting `isStartingRef.current = true`. The Boolean reports
whether the call proceeds past the guard. -/
def segGuard (s : CaptureState) : CaptureState × Bool :=
  if s.audioContext || s.isStarting then (s, false)
  else ({ s with isStarting := true }, true)

/-- The segment after `getUserMedia` resolves: store the stream in
`streamRef` (one more successful device acquisition). -/
def segAcquireStream (s : CaptureState) : CaptureState :=
  { s with stream := true, acquiredStreams := s.acquiredStreams + 1 }

/-- The segment creating the `AudioContext` and the analyser node and
storing their refs, up to the `addModule` await. -/
def segCreateContext (s : CaptureState) : CaptureState :=
  { s with audioContext := true, analyser := true }

/-- The final segment after `addModule` resolves: create the source and
worklet nodes, connect the graph, request the animation frame, and (in the
`finally`) clear `isStartingRef`. -/
def segWireGraph (s : CaptureState) : CaptureState :=
  { s with sourceNode := true, workletNode := true, animationFrame := true,
           isStarting := false }

/-- The catch-plus-finally path of `startAudioCapture`: surface the
classified label via `setError`, run `stopAudioCapture` to release any
partial initialization, and clear `isStartingRef`. -/
def failCleanup (e : MicFailure) (s : CaptureState) : CaptureState :=
  { stopAudio s with errorLabel := some (classify e), isStarting := false }

/-- How one `startAudioCapture` run resolves: all awaits succeed, or the
settings read rejects, or `getUserMedia` rejects, or `addModule` rejects
(after the stream and context were already acquired). -/
inductive StartOutcome
  | ok
  | failStore (e : MicFailure)
  | failGetUserMedia (e : MicFailure)
  | failAddModule (e : MicFailure)
deriving DecidableEq

/-- The environment of one start attempt: the configured microphone device
id read from settings, and how the asynchronous steps resolve. -/
structure StartEnv where
  deviceId : Option String
  outcome : StartOutcome

/-- One complete (uninterrupted) run of `startAudioCapture`: guard, then
either the full acquisition path or the catch/cleanup path of the step
that failed. -/
def startFull (env : StartEnv) (s : CaptureState) : CaptureState :=
  match segGuard s with
  | (s0, false) => s0
  | (s1, true) =>
    match env.outcome with
    | .ok => segWireGraph (segCreateContext (segAcquireStream s1))
    | .failStore e => failCleanup e s1
    | .failGetUserMedia e => failCleanup e s1
    | .failAddModule e => failCleanup e (segCreateContext (segAcquireStream s1))

/-- The `floating-expanded(true)` handler, with the subsequent
`startAudioCapture` run to completion: set active, clear error and
processing, then start. -/
def activate (env : StartEnv) (s : CaptureState) : CaptureState :=
  startFull env { s with isActive := true, errorLabel := none, isProcessing := false }

/-- The `floating-expanded(false)` handler: set inactive, clear processing,
and run the synchronous `stopAudioCapture`. -/
def deactivate (s : CaptureState) : CaptureState :=
  stopAudio { s with isActive := false, isProcessing := false }

/-- The racing interleaving: the `floating-expanded(true)` handler runs and
`startAudioCapture` passes its guard, then — while the start is suspended
at its first `await` — the `floating-expanded(false)` handler runs
`stopAudioCapture` to completion, and only then does the superseded start
continuation resume and finish its acquisition. There is no generation
counter or staleness check in the code, so the continuation acquires the
device and graph anyway. -/
def raceTrace (env : StartEnv) (s : CaptureState) : CaptureState :=
  match segGuard { s with isActive := true, errorLabel := none, isProcessing := false } with
  | (s0, false) => stopAudio { s0 with isActive := false, isProcessing := false }
  | (s1, true) =>
    let s2 := stopAudio { s1 with isActive := false, isProcessing := false }
    match env.outcome with
    | .ok => segWireGraph (segCreateContext (segAcquireStream s2))
    | .failStore e => failCleanup e s2
    | .failGetUserMedia e => failCleanup e s2
    | .failAddModule e => failCleanup e (segCreateContext (segAcquireStream s2))

/-! ### Lifecycle lemmas -/

theorem segGuard_of_idle (s : CaptureState)
    (h1 : s.audioContext = false) (h2 : s.isStarting = false) :
    segGuard s = ({ s with isStarting := true }, true) := by
  rw [segGuard, if_neg]
  rw [h1, h2]
  simp

/-! ## Claim theorems for the lifecycle -/

/-- Claim C3 (amended): when the start triggered by activation(true) has
run to completion (any outcome) and the activation(false) handler then
runs, no live CaptureHandle remains — stream, audio context, analyser,
source node, worklet node and animation frame are all released — and the
bar vector is back at baseline. The in-flight part of the claim is false:
the code has no generation counter or staleness check, so a deactivation
that lands while the start is suspended at an await does not stop the
superseded continuation from acquiring the device (see the
counterexample). -/
theorem dictato_C3_sequential_teardown (env : StartEnv) (s : CaptureState) :
    (deactivate (activate env s)).stream = false ∧
    (deactivate (activate env s)).audioContext = false ∧
    (deactivate (activate env s)).analyser = false ∧
    (deactivate (activate env s)).sourceNode = false ∧
    (deactivate (activate env s)).workletNode = false ∧
    (deactivate (activate env s)).animationFrame = false ∧
    (deactivate (activate env s)).barHeights = freqBaseline :=
  ⟨rfl, rfl, rfl, rfl, rfl, rfl, rfl⟩

/-- Claim C3 counterexample: starting from the idle initial state, if
activation(true) passes the start guard, deactivation then runs
`stopAudioCapture` while the start is suspended at its first await, and the
superseded start continuation afterwards completes, the final state has a
live audio context, stream, and animation frame even though the window is
inactive — a live CaptureHandle remains, refuting the claim's in-flight
case. -/
theorem dictato_C3_counterexample :
    (raceTrace ⟨none, StartOutcome.ok⟩ initialCapture).audioContext = true ∧
    (raceTrace ⟨none, StartOutcome.ok⟩ initialCapture).stream = true ∧
    (raceTrace ⟨none, StartOutcome.ok⟩ initialCapture).animationFrame = true ∧
    (raceTrace ⟨none, StartOutcome.ok⟩ initialCapture).isActive = false :=
  ⟨rfl, rfl, rfl, rfl⟩

/-- Claim C5: while a session is Starting (`isStartingRef` set before the
first await) or Live (`audioContextRef` set), a second `startAudioCapture`
call is a no-op, so a double start from idle performs exactly one device
acquisition and leaves one live capture graph. -/
theorem dictato_C5_start_guard (env1 env2 : StartEnv) (s : CaptureState)
    (hlive : s.isStarting = true ∨ s.audioContext = true)
    (hok : env1.outcome = StartOutcome.ok) :
    startFull env1 s = s ∧
    (startFull env2 (startFull env1 initialCapture)).acquiredStreams = 1 ∧
    (startFull env2 (startFull env1 initialCapture)).audioContext = true := by
  constructor
  · have hg : segGuard s = (s, false) := by
      rw [segGuard, if_pos]
      rcases hlive with h | h <;> rw [h] <;> simp
    rw [startFull.eq_def, hg]
  · have hr : startFull env1 initialCapture =
        ⟨true, true, true, true, true, true, false, false, false, none, freqBaseline, 1⟩ := by
      obtain ⟨d, o⟩ := env1
      simp only at hok
      subst hok
      rfl
    rw [hr]
    exact ⟨rfl, rfl⟩

/-- Witness for C5: a live state and two concrete successful environments. -/
theorem dictato_C5_start_guard_witness :
    startFull ⟨none, StartOutcome.ok⟩ { initialCapture with audioContext := true } =
      { initialCapture with audioContext := true } ∧
    (startFull ⟨none, StartOutcome.ok⟩
      (startFull ⟨none, StartOutcome.ok⟩ initialCapture)).acquiredStreams = 1 ∧
    (startFull ⟨none, StartOutcome.ok⟩
      (startFull ⟨none, StartOutcome.ok⟩ initialCapture)).audioContext = true :=
  dictato_C5_start_guard ⟨none, StartOutcome.ok⟩ ⟨none, StartOutcome.ok⟩
    { initialCapture with audioContext := true } (Or.inr rfl) rfl

/-- Claim C6: every acquisition failure during a start from idle is
classified into exactly one of the four categories (surfaced as the short
labels "Mic denied" / "Mic not found" / "Mic unavailable" / a generic
mic-error label), the start performs at most one acquisition attempt (no
auto-retry), and the catch path always invokes the stop routine, so the
session ends with every resource released, the starting flag cleared, and
baseline bars — even if acquisition never completed. -/
theorem dictato_C6_failure_handling (env : StartEnv) (s : CaptureState) (e : MicFailure)
    (hidle1 : s.audioContext = false) (hidle2 : s.isStarting = false)
    (hfail : env.outcome = StartOutcome.failStore e ∨
      env.outcome = StartOutcome.failGetUserMedia e ∨
      env.outcome = StartOutcome.failAddModule e) :
    (startFull env s).stream = false ∧
    (startFull env s).audioContext = false ∧
    (startFull env s).analyser = false ∧
    (startFull env s).sourceNode = false ∧
    (startFull env s).workletNode = false ∧
    (startFull env s).animationFrame = false ∧
    (startFull env s).isStarting = false ∧
    (startFull env s).barHeights = freqBaseline ∧
    (startFull env s).errorLabel = some (classify e) ∧
    (startFull env s).acquiredStreams ≤ s.acquiredStreams + 1 ∧
    categoryOf (classify MicFailure.notAllowed) = ErrCategory.permissionDenied ∧
    categoryOf (classify MicFailure.notFound) = ErrCategory.deviceNotFound ∧
    categoryOf (classify MicFailure.overconstrained) = ErrCategory.constraintsUnsatisfiable ∧
    (∀ nm, categoryOf (classify (MicFailure.otherDOM nm)) = ErrCategory.unknownCaptureError) ∧
    categoryOf (classify MicFailure.nonDOM) = ErrCategory.unknownCaptureError := by
  have hg := segGuard_of_idle s hidle1 hidle2
  obtain ⟨d, o⟩ := env
  rcases hfail with h | h | h <;> simp only at h <;> subst h
  · have hred : startFull ⟨d, StartOutcome.failStore e⟩ s =
        failCleanup e { s with isStarting := true } := by
      rw [startFull.eq_def, hg]
    rw [hred]
    exact ⟨rfl, rfl, rfl, rfl, rfl, rfl, rfl, rfl, rfl, Nat.le_succ _,
      rfl, rfl, rfl, fun nm => rfl, rfl⟩
  · have hred : startFull ⟨d, StartOutcome.failGetUserMedia e⟩ s =
        failCleanup e { s with isStarting := true } := by
      rw [startFull.eq_def, hg]
    rw [hred]
    exact ⟨rfl, rfl, rfl, rfl, rfl, rfl, rfl, rfl, rfl, Nat.le_succ _,
      rfl, rfl, rfl, fun nm => rfl, rfl⟩
  · have hred : startFull ⟨d, StartOutcome.failAddModule e⟩ s =
        failCleanup e (segCreateContext (segAcquireStream { s with isStarting := true })) := by
      rw [startFull.eq_def, hg]
    rw [hred]
    exact ⟨rfl, rfl, rfl, rfl, rfl, rfl, rfl, rfl, rfl, Nat.le_refl _,
      rfl, rfl, rfl, fun nm => rfl, rfl⟩

/-- Witness for C6: a permission denial at `getUserMedia` from the initial
idle state. -/
theorem dictato_C6_failure_handling_witness :
    (startFull ⟨none, StartOutcome.failGetUserMedia MicFailure.notAllowed⟩
      initialCapture).stream = false ∧
    (startFull ⟨none, StartOutcome.failGetUserMedia MicFailure.notAllowed⟩
      initialCapture).audioContext = false ∧
    (startFull ⟨none, StartOutcome.failGetUserMedia MicFailure.notAllowed⟩
      initialCapture).analyser = false ∧
    (startFull ⟨none, StartOutcome.failGetUserMedia MicFailure.notAllowed⟩
      initialCapture).sourceNode = false ∧
    (startFull ⟨none, StartOutcome.failGetUserMedia MicFailure.notAllowed⟩
      initialCapture).workletNode = false ∧
    (startFull ⟨none, StartOutcome.failGetUserMedia MicFailure.notAllowed⟩
      initialCapture).animationFrame = false ∧
    (startFull ⟨none, StartOutcome.failGetUserMedia MicFailure.notAllowed⟩
      initialCapture).isStarting = false ∧
    (startFull ⟨none, StartOutcome.failGetUserMedia MicFailure.notAllowed⟩
      initialCapture).barHeights = freqBaseline ∧
    (startFull ⟨none, StartOutcome.failGetUserMedia MicFailure.notAllowed⟩
      initialCapture).errorLabel = some (classify MicFailure.notAllowed) ∧
    (startFull ⟨none, StartOutcome.failGetUserMedia MicFailure.notAllowed⟩
      initialCapture).acquiredStreams ≤ initialCapture.acquiredStreams + 1 ∧
    categoryOf (classify MicFailure.notAllowed) = ErrCategory.permissionDenied ∧
    categoryOf (classify MicFailure.notFound) = ErrCategory.deviceNotFound ∧
    categoryOf (classify MicFailure.overconstrained) = ErrCategory.constraintsUnsatisfiable ∧
    (∀ nm, categoryOf (classify (MicFailure.otherDOM nm)) = ErrCategory.unknownCaptureError) ∧
    categoryOf (classify MicFailure.nonDOM) = ErrCategory.unknownCaptureError :=
  dictato_C6_failure_handling ⟨none, StartOutcome.failGetUserMedia MicFailure.notAllowed⟩
    initialCapture MicFailure.notAllowed rfl rfl (Or.inr (Or.inl rfl))

/-- Claim C7: `stopAudioCapture` on an already-idle session (all refs null,
no pending animation frame, bars already at baseline) never faults and is a
no-op — the state is unchanged, the bar vector being re-set to the baseline
it already holds — and stop composed with itself equals a single stop on
every state. -/
theorem dictato_C7_stop_idempotent (s t : CaptureState)
    (h1 : s.stream = false) (h2 : s.audioContext = false) (h3 : s.analyser = false)
    (h4 : s.sourceNode = false) (h5 : s.workletNode = false) (h6 : s.animationFrame = false)
    (h7 : s.barHeights = freqBaseline) :
    stopAudio s = s ∧ stopAudio (stopAudio t) = stopAudio t := by
  constructor
  · obtain ⟨f1, f2, f3, f4, f5, f6, f7, f8, f9, f10, f11, f12⟩ := s
    simp only at h1 h2 h3 h4 h5 h6 h7
    subst h1 h2 h3 h4 h5 h6 h7
    rfl
  · rfl

/-- Witness for C7 at the initial idle state. -/
theorem dictato_C7_stop_idempotent_witness :
    stopAudio initialCapture = initialCapture ∧
    stopAudio (stopAudio initialCapture) = stopAudio initialCapture :=
  dictato_C7_stop_idempotent initialCapture initialCapture rfl rfl rfl rfl rfl rfl rfl

end Dictato
